import Mathlib

/-!
Shallow embedding of the browser-control dispatcher (src/index.ts).

The program is a WebSocket message dispatcher over a page registry
(`openPages : Record<string, Page>`).  The browser-automation engine
(puppeteer) is external; it is modelled as a record of oracles
(`Engine`), each returning `Except Unit _` where `Except.error ()`
stands for a thrown/rejected engine call.  Every handler records the
engine calls it performs in a trace (`List EngineCall`) so that
"performs no engine call" claims are statable.
-/

/-- Opaque puppeteer `Page` handle; the dispatcher never inspects it. -/
abbrev PageHandle := Nat

/-- `openPages : Record<string, Page>` — the page registry. -/
abbrev Registry := List (String × PageHandle)

/-- JS property lookup `obj[key]` on a string-keyed record: the bound
value or `none` (undefined). -/
def rlookup {α : Type} (k : String) : List (String × α) → Option α
  | [] => none
  | (k', v) :: rest => if k' = k then some v else rlookup k rest

/-- JS property assignment `obj[key] = v` (only used on absent keys). -/
def rinsert {α : Type} (k : String) (v : α) (m : List (String × α)) :
    List (String × α) :=
  (k, v) :: m

/-- Startup seeding: `openPages["default"] = pages[0]` (index.ts lines 16-17). -/
def seedRegistry (h : PageHandle) : Registry := [("default", h)]

/-- puppeteer `SerializedAXNode`: a name plus an *optional* list of
children (the `children?` field may be absent, which is distinct from
being present and empty). -/
inductive AXNode : Type where
  | mk (name : String) (children : Option (List AXNode))

def AXNode.name : AXNode → String
  | .mk n _ => n

def AXNode.children : AXNode → Option (List AXNode)
  | .mk _ c => c

/-- JS truthiness of `node.children`: an absent field is falsy, a
present array (even empty) is truthy. -/
def hasChildrenField : AXNode → Bool
  | .mk _ none => false
  | .mk _ (some _) => true

/-! `flattenAX` is `observe`'s `recurseChildren` (index.ts lines
98-108): bail out when `!node.children` (field absent), otherwise push
a copy of the node and recurse into every child, left to right. -/
mutual
def flattenAX : AXNode → List AXNode
  | .mk _ none => []
  | .mk n (some cs) => AXNode.mk n (some cs) :: flattenForest cs

def flattenForest : List AXNode → List AXNode
  | [] => []
  | c :: cs => flattenAX c ++ flattenForest cs
end

/-! `preorderAX` lists all nodes of the tree in pre-order (parent
first, children left to right); used to state what `flattenAX` keeps. -/
mutual
def preorderAX : AXNode → List AXNode
  | .mk n none => [AXNode.mk n none]
  | .mk n (some cs) => AXNode.mk n (some cs) :: preorderForest cs

def preorderForest : List AXNode → List AXNode
  | [] => []
  | c :: cs => preorderAX c ++ preorderForest cs
end

/-- One element produced by `getInteractiveElements`'s in-page
evaluation (index.ts lines 136-149).  JSON keys `class` and `type` are
Lean keywords and are rendered `cls` / `inputType`. -/
structure InteractiveElement where
  visible : Bool
  cls : String
  label : String
  description : String
  role : String
  href : String
  text : String
  id : String
  assigned : String
  tagName : String
  inputType : String
  value : String

/-- The browser-automation engine as consumed by the dispatcher.
`Except.error ()` models a thrown exception / rejected promise. -/
structure Engine where
  newPage : Except Unit PageHandle
  content : PageHandle → Except Unit String
  goto : PageHandle → String → Except Unit Unit
  clickSelector : PageHandle → String → Except Unit Unit
  typeSelector : PageHandle → String → String → Except Unit Unit
  keyboardType : PageHandle → String → Except Unit Unit
  keyboardPress : PageHandle → String → Except Unit Unit
  mouseClick : PageHandle → Int → Int → Except Unit Unit
  mouseMove : PageHandle → Int → Int → Except Unit Unit
  screenshot : PageHandle → Except Unit String
  axSnapshot : PageHandle → Except Unit (Option AXNode)
  evalInteractive : PageHandle → Except Unit (List InteractiveElement)

/-- Trace entry: one engine invocation, with its arguments. -/
inductive EngineCall : Type where
  | newPage
  | content (p : PageHandle)
  | goto (p : PageHandle) (url : String)
  | clickSelector (p : PageHandle) (sel : String)
  | typeSelector (p : PageHandle) (sel text : String)
  | keyboardType (p : PageHandle) (text : String)
  | keyboardPress (p : PageHandle) (key : String)
  | mouseClick (p : PageHandle) (x y : Int)
  | mouseMove (p : PageHandle) (x y : Int)
  | screenshot (p : PageHandle)
  | axSnapshot (p : PageHandle)
  | evalInteractive (p : PageHandle)
deriving DecidableEq

/-- Outbound payloads.  `ack` is the implicit acknowledgment (the
handler returned `undefined`); `raw` is a bare string (`get_html`),
not wrapped in an object. -/
inductive Response : Type where
  | ack
  | errMsg (msg : String)
  | successTrue
  | raw (html : String)
  | screenshotObj (data : String)
  | itemsObj (items : List InteractiveElement)
  | snapshotObj (nodes : List AXNode)

/-- Inbound requests: the ten known discriminants, plus `unknown` for
any other value of the `message` field (the switch's `default` arm). -/
inductive Message : Type where
  | create_page (pageId : String)
  | navigate (pageId url : String)
  | get_html (pageId : String)
  | click (pageId selector : String)
  | input_text (pageId selector text : String) (enter : Option Bool)
  | type_text (pageId text : String) (enter : Option Bool)
  | move_mouse (pageId : String) (x y : Int) (clickFlag : Option Bool)
  | get_screenshot (pageId : String)
  | get_interactive_elements (pageId : String)
  | observe (pageId : String)
  | unknown (discriminant : String) (pageId : String)
deriving DecidableEq

/-- The request's `message` field. -/
def Message.discr : Message → String
  | .create_page _ => "create_page"
  | .navigate _ _ => "navigate"
  | .get_html _ => "get_html"
  | .click _ _ => "click"
  | .input_text _ _ _ _ => "input_text"
  | .type_text _ _ _ => "type_text"
  | .move_mouse _ _ _ _ => "move_mouse"
  | .get_screenshot _ => "get_screenshot"
  | .get_interactive_elements _ => "get_interactive_elements"
  | .observe _ => "observe"
  | .unknown d _ => d

/-- The request's `pageId` field. -/
def Message.pageId : Message → String
  | .create_page p => p
  | .navigate p _ => p
  | .get_html p => p
  | .click p _ => p
  | .input_text p _ _ _ => p
  | .type_text p _ _ => p
  | .move_mouse p _ _ _ => p
  | .get_screenshot p => p
  | .get_interactive_elements p => p
  | .observe p => p
  | .unknown _ p => p

/-- The ten discriminants the switch recognizes. -/
def knownDiscriminants : List String :=
  ["create_page", "navigate", "get_html", "click", "input_text",
   "type_text", "move_mouse", "get_screenshot",
   "get_interactive_elements", "observe"]

/-- JS truthiness of an optional boolean flag (`enter?` / `click?`):
truthy exactly when present and `true`. -/
def flagSet (o : Option Bool) : Bool := o.getD false

/-- `observe` handler (index.ts lines 92-122).  The snapshot call is
not wrapped in try/catch, so an engine failure propagates
(`Except.error ()`); a `null` snapshot yields the
"No snapshot available" payload; otherwise the tree is flattened by
`recurseChildren`. -/
def observe (eng : Engine) (reg : Registry) (pageId : String) :
    Except Unit Response × List EngineCall :=
  match rlookup pageId reg with
  | none => (Except.error (), [])
  | some p =>
    match eng.axSnapshot p with
    | Except.error _ => (Except.error (), [EngineCall.axSnapshot p])
    | Except.ok none =>
        (Except.ok (Response.errMsg "No snapshot available"),
         [EngineCall.axSnapshot p])
    | Except.ok (some root) =>
        (Except.ok (Response.snapshotObj (flattenAX root)),
         [EngineCall.axSnapshot p])

/-- `getInteractiveElements` handler (index.ts lines 124-156); the
evaluate call is not wrapped, so failures propagate. -/
def getInteractiveElements (eng : Engine) (reg : Registry)
    (pageId : String) : Except Unit Response × List EngineCall :=
  match rlookup pageId reg with
  | none => (Except.error (), [])
  | some p =>
    match eng.evalInteractive p with
    | Except.error _ => (Except.error (), [EngineCall.evalInteractive p])
    | Except.ok items =>
        (Except.ok (Response.itemsObj items), [EngineCall.evalInteractive p])

/-- `typeText` handler (index.ts lines 158-173): keyboard stream type,
optional Enter, all failures caught as "Could not type". -/
def typeText (eng : Engine) (reg : Registry) (pageId text : String)
    (enter : Option Bool) : Except Unit Response × List EngineCall :=
  match rlookup pageId reg with
  | none => (Except.ok (Response.errMsg "Could not type"), [])
  | some p =>
    match eng.keyboardType p text with
    | Except.error _ =>
        (Except.ok (Response.errMsg "Could not type"),
         [EngineCall.keyboardType p text])
    | Except.ok _ =>
      if flagSet enter then
        match eng.keyboardPress p "Enter" with
        | Except.error _ =>
            (Except.ok (Response.errMsg "Could not type"),
             [EngineCall.keyboardType p text, EngineCall.keyboardPress p "Enter"])
        | Except.ok _ =>
            (Except.ok Response.ack,
             [EngineCall.keyboardType p text, EngineCall.keyboardPress p "Enter"])
      else
        (Except.ok Response.ack, [EngineCall.keyboardType p text])

/-- `moveMouse` handler (index.ts lines 175-190): click at (x, y) when
the `click` flag is truthy, else move the pointer; failures caught as
"Could not move mouse". -/
def moveMouse (eng : Engine) (reg : Registry) (pageId : String)
    (x y : Int) (clickFlag : Option Bool) :
    Except Unit Response × List EngineCall :=
  match rlookup pageId reg with
  | none => (Except.ok (Response.errMsg "Could not move mouse"), [])
  | some p =>
    if flagSet clickFlag then
      match eng.mouseClick p x y with
      | Except.error _ =>
          (Except.ok (Response.errMsg "Could not move mouse"),
           [EngineCall.mouseClick p x y])
      | Except.ok _ => (Except.ok Response.ack, [EngineCall.mouseClick p x y])
    else
      match eng.mouseMove p x y with
      | Except.error _ =>
          (Except.ok (Response.errMsg "Could not move mouse"),
           [EngineCall.mouseMove p x y])
      | Except.ok _ => (Except.ok Response.ack, [EngineCall.mouseMove p x y])

/-- `click` handler (index.ts lines 192-205). -/
def click (eng : Engine) (reg : Registry) (pageId selector : String) :
    Except Unit Response × List EngineCall :=
  match rlookup pageId reg with
  | none => (Except.ok (Response.errMsg "Error while executing click"), [])
  | some p =>
    match eng.clickSelector p selector with
    | Except.error _ =>
        (Except.ok (Response.errMsg "Error while executing click"),
         [EngineCall.clickSelector p selector])
    | Except.ok _ =>
        (Except.ok Response.successTrue, [EngineCall.clickSelector p selector])

/-- `inputText` handler (index.ts lines 207-222). -/
def inputText (eng : Engine) (reg : Registry)
    (pageId selector text : String) (enter : Option Bool) :
    Except Unit Response × List EngineCall :=
  match rlookup pageId reg with
  | none => (Except.ok (Response.errMsg "Error while typing"), [])
  | some p =>
    match eng.typeSelector p selector text with
    | Except.error _ =>
        (Except.ok (Response.errMsg "Error while typing"),
         [EngineCall.typeSelector p selector text])
    | Except.ok _ =>
      if flagSet enter then
        match eng.keyboardPress p "Enter" with
        | Except.error _ =>
            (Except.ok (Response.errMsg "Error while typing"),
             [EngineCall.typeSelector p selector text,
              EngineCall.keyboardPress p "Enter"])
        | Except.ok _ =>
            (Except.ok Response.ack,
             [EngineCall.typeSelector p selector text,
              EngineCall.keyboardPress p "Enter"])
      else
        (Except.ok Response.ack, [EngineCall.typeSelector p selector text])

/-- `getHtml` handler (index.ts lines 224-228): returns
`page.content()` directly — a bare string, with no try/catch, so an
engine failure propagates out of the handler. -/
def getHtml (eng : Engine) (reg : Registry) (pageId : String) :
    Except Unit Response × List EngineCall :=
  match rlookup pageId reg with
  | none => (Except.error (), [])
  | some p =>
    match eng.content p with
    | Except.error _ => (Except.error (), [EngineCall.content p])
    | Except.ok s => (Except.ok (Response.raw s), [EngineCall.content p])

/-- `createPage` handler (index.ts lines 230-239): reject when the
identifier is already bound (no mutation), else ask the browser for a
new page (`b.newPage()`, not wrapped, so failure propagates) and bind
it. -/
def createPage (eng : Engine) (reg : Registry) (pageId : String) :
    Except Unit Response × Registry × List EngineCall :=
  match rlookup pageId reg with
  | some _ => (Except.ok (Response.errMsg "Page already exists"), reg, [])
  | none =>
    match eng.newPage with
    | Except.error _ => (Except.error (), reg, [EngineCall.newPage])
    | Except.ok h =>
        (Except.ok Response.ack, rinsert pageId h reg, [EngineCall.newPage])

/-- `navigate` handler (index.ts lines 241-253). -/
def navigate (eng : Engine) (reg : Registry) (pageId url : String) :
    Except Unit Response × List EngineCall :=
  match rlookup pageId reg with
  | none => (Except.ok (Response.errMsg "Error while navigating"), [])
  | some p =>
    match eng.goto p url with
    | Except.error _ =>
        (Except.ok (Response.errMsg "Error while navigating"),
         [EngineCall.goto p url])
    | Except.ok _ => (Except.ok Response.ack, [EngineCall.goto p url])

/-- `getScreenshot` handler (index.ts lines 255-268). -/
def getScreenshot (eng : Engine) (reg : Registry) (pageId : String) :
    Except Unit Response × List EngineCall :=
  match rlookup pageId reg with
  | none => (Except.ok (Response.errMsg "Error while taking screenshot"), [])
  | some p =>
    match eng.screenshot p with
    | Except.error _ =>
        (Except.ok (Response.errMsg "Error while taking screenshot"),
         [EngineCall.screenshot p])
    | Except.ok d =>
        (Except.ok (Response.screenshotObj d), [EngineCall.screenshot p])

/-- `messageSwitch` (index.ts lines 270-299): resolve
`openPages[req.pageId]` first — for every request, with no exemption —
short-circuiting with the missing-page payload when unbound, then
route by the `message` discriminant.  Only `createPage` can change the
registry. -/
def messageSwitch (eng : Engine) (reg : Registry) (req : Message) :
    Except Unit Response × Registry × List EngineCall :=
  match rlookup req.pageId reg with
  | none =>
      (Except.ok (Response.errMsg "Page with requested pageId not found"),
       reg, [])
  | some _ =>
    match req with
    | .observe pid =>
        let r := observe eng reg pid; (r.1, reg, r.2)
    | .get_interactive_elements pid =>
        let r := getInteractiveElements eng reg pid; (r.1, reg, r.2)
    | .type_text pid text enter =>
        let r := typeText eng reg pid text enter; (r.1, reg, r.2)
    | .get_screenshot pid =>
        let r := getScreenshot eng reg pid; (r.1, reg, r.2)
    | .create_page pid => createPage eng reg pid
    | .navigate pid url =>
        let r := navigate eng reg pid url; (r.1, reg, r.2)
    | .get_html pid =>
        let r := getHtml eng reg pid; (r.1, reg, r.2)
    | .click pid sel =>
        let r := click eng reg pid sel; (r.1, reg, r.2)
    | .input_text pid sel text enter =>
        let r := inputText eng reg pid sel text enter; (r.1, reg, r.2)
    | .move_mouse pid x y c =>
        let r := moveMouse eng reg pid x y c; (r.1, reg, r.2)
    | .unknown _ _ =>
        (Except.ok (Response.errMsg "No message found"), reg, [])

/-- Dispatch a sequence of requests, threading the registry. -/
def runDispatch (eng : Engine) (reg : Registry) : List Message → Registry
  | [] => reg
  | req :: rest => runDispatch eng (messageSwitch eng reg req).2.1 rest

/-- One inbound WebSocket text frame: either text on which `JSON.parse`
throws, or a decoded request. -/
inductive Inbound : Type where
  | malformed (raw : String)
  | wellFormed (req : Message)

/-- One frame sent back to the client: the connection-time status
object, or a serialized dispatch payload. -/
inductive Sent : Type where
  | statusObj (fields : List (String × String))
  | payload (r : Response)

/-- The `socket.on("message")` handler (index.ts lines 325-339), folded
over a connection's inbound frames: a `JSON.parse` failure is caught
and answered with the parse-error payload (the connection stays open
and later frames are still processed); a decoded request is dispatched,
and its response sent — unless dispatch rejected (uncaught engine
exception), in which case that one response is dropped. -/
def handleMessages (eng : Engine) (reg : Registry) :
    List Inbound → List Sent × Registry
  | [] => ([], reg)
  | Inbound.malformed _ :: rest =>
      let r := handleMessages eng reg rest
      (Sent.payload (Response.errMsg "Error while parsing JSON") :: r.1, r.2)
  | Inbound.wellFormed req :: rest =>
      match messageSwitch eng reg req with
      | (Except.ok res, reg1, _) =>
          let r := handleMessages eng reg1 rest
          (Sent.payload res :: r.1, r.2)
      | (Except.error _, reg1, _) =>
          let r := handleMessages eng reg1 rest
          (r.1, r.2)

/-- The status object sent on connection (index.ts lines 311-315): note
the misspelled key `messge`. -/
def statusNotification (browserUp : Bool) : List (String × String) :=
  [("messge", "browser_status"),
   ("status", if browserUp then "up" else "down")]

/-- The `wss.on("connection")` handler (index.ts lines 309-340): send
the status object first, then serve the connection's frames. -/
def onConnection (browserUp : Bool) (eng : Engine) (reg : Registry)
    (msgs : List Inbound) : List Sent × Registry :=
  let r := handleMessages eng reg msgs
  (Sent.statusObj (statusNotification browserUp) :: r.1, r.2)

/-! ### Fixtures: concrete engines and trees used to evaluate the
definitions on closed inputs. -/

/-- The synthetic accessibility tree `D` (leaf, `children` absent). -/
def exD : AXNode := AXNode.mk "D" none

/-- The synthetic node `B` with a present but empty `children` array. -/
def exB : AXNode := AXNode.mk "B" (some [])

/-- The synthetic node `C` with one child `D`. -/
def exC : AXNode := AXNode.mk "C" (some [exD])

/-- The synthetic root `A` with children `B` and `C`. -/
def exA : AXNode := AXNode.mk "A" (some [exB, exC])

/-- An engine on which every operation succeeds. -/
def engOk : Engine :=
  Engine.mk (Except.ok 100) (fun _ => Except.ok "<html></html>")
    (fun _ _ => Except.ok ()) (fun _ _ => Except.ok ())
    (fun _ _ _ => Except.ok ()) (fun _ _ => Except.ok ())
    (fun _ _ => Except.ok ()) (fun _ _ _ => Except.ok ())
    (fun _ _ _ => Except.ok ()) (fun _ => Except.ok "imgdata")
    (fun _ => Except.ok none) (fun _ => Except.ok [])

/-- An engine whose accessibility snapshot is the synthetic tree `A`. -/
def engSnapA : Engine :=
  Engine.mk (Except.ok 100) (fun _ => Except.ok "<html></html>")
    (fun _ _ => Except.ok ()) (fun _ _ => Except.ok ())
    (fun _ _ _ => Except.ok ()) (fun _ _ => Except.ok ())
    (fun _ _ => Except.ok ()) (fun _ _ _ => Except.ok ())
    (fun _ _ _ => Except.ok ()) (fun _ => Except.ok "imgdata")
    (fun _ => Except.ok (some exA)) (fun _ => Except.ok [])

/-! ### Helper lemmas shared by the claim theorems. -/

/-! `flattenAX` keeps, in pre-order, exactly the nodes whose `children`
field is present (truthy in JS) — including nodes whose child list is
empty. -/
mutual
theorem flatten_eq_filter (t : AXNode) :
    flattenAX t = (preorderAX t).filter hasChildrenField := by
  match t with
  | .mk n none => simp [flattenAX, preorderAX, hasChildrenField]
  | .mk n (some cs) =>
    simp [flattenAX, preorderAX, hasChildrenField, List.filter]
    exact flattenForest_eq_filter cs

theorem flattenForest_eq_filter (cs : List AXNode) :
    flattenForest cs = (preorderForest cs).filter hasChildrenField := by
  match cs with
  | [] => simp [flattenForest, preorderForest]
  | c :: rest =>
    simp [flattenForest, preorderForest, List.filter_append]
    rw [flatten_eq_filter c, flattenForest_eq_filter rest]
end

/-- Dispatch never changes the registry: the pre-switch resolution
short-circuits unbound identifiers (including `create_page` ones), and
when the identifier is bound `createPage` takes its duplicate branch. -/
theorem messageSwitch_registry_eq (eng : Engine) (reg : Registry)
    (req : Message) : (messageSwitch eng reg req).2.1 = reg := by
  cases req with
  | create_page pid =>
    simp only [messageSwitch, Message.pageId]
    cases hb : rlookup pid reg with
    | none => rfl
    | some p => simp [createPage, hb]
  | navigate pid url =>
    simp only [messageSwitch, Message.pageId]
    cases hb : rlookup pid reg <;> rfl
  | get_html pid =>
    simp only [messageSwitch, Message.pageId]
    cases hb : rlookup pid reg <;> rfl
  | click pid sel =>
    simp only [messageSwitch, Message.pageId]
    cases hb : rlookup pid reg <;> rfl
  | input_text pid sel text enter =>
    simp only [messageSwitch, Message.pageId]
    cases hb : rlookup pid reg <;> rfl
  | type_text pid text enter =>
    simp only [messageSwitch, Message.pageId]
    cases hb : rlookup pid reg <;> rfl
  | move_mouse pid x y c =>
    simp only [messageSwitch, Message.pageId]
    cases hb : rlookup pid reg <;> rfl
  | get_screenshot pid =>
    simp only [messageSwitch, Message.pageId]
    cases hb : rlookup pid reg <;> rfl
  | get_interactive_elements pid =>
    simp only [messageSwitch, Message.pageId]
    cases hb : rlookup pid reg <;> rfl
  | observe pid =>
    simp only [messageSwitch, Message.pageId]
    cases hb : rlookup pid reg <;> rfl
  | unknown d pid =>
    simp only [messageSwitch, Message.pageId]
    cases hb : rlookup pid reg <;> rfl

/-- Running any request sequence leaves the registry as it started. -/
theorem runDispatch_registry_eq (eng : Engine) (reg : Registry)
    (reqs : List Message) : runDispatch eng reg reqs = reg := by
  induction reqs generalizing reg with
  | nil => rfl
  | cons req rest ih =>
    simp [runDispatch, messageSwitch_registry_eq, ih]

/-! ### Claim theorems. -/

/-- Claim C1 (code behavior at the failing input): `messageSwitch`
resolves the page identifier before the switch with no exemption for
`create_page`, so dispatching `create_page` for the fresh identifier
"page1" against the seeded registry returns the missing-page error
payload, performs no engine call, and binds nothing — contradicting
the claimed exemption, while `createPage`'s own duplicate check and
creation branch show the exemption was the intent. -/
theorem dispatch_create_page_unbound_misses :
    messageSwitch engOk (seedRegistry 0) (Message.create_page "page1")
      = (Except.ok (Response.errMsg "Page with requested pageId not found"),
         seedRegistry 0, [])
    ∧ messageSwitch engOk (seedRegistry 0) (Message.create_page "page1")
      ≠ (Except.ok Response.ack,
         rinsert "page1" 100 (seedRegistry 0), [EngineCall.newPage]) := by
  constructor
  · rfl
  · intro h
    have h1 :
        (messageSwitch engOk (seedRegistry 0)
          (Message.create_page "page1")).2.2 = [EngineCall.newPage] := by
      rw [h]
    exact absurd ((rfl : (messageSwitch engOk (seedRegistry 0)
      (Message.create_page "page1")).2.2 = []) ▸ h1) (by decide)

/-- Claim C2: for every identifier unbound in the registry and every
command other than `create_page`, the dispatcher returns exactly the
missing-page error payload, leaves the registry unchanged, and
performs zero engine calls. -/
theorem missing_page_short_circuit (eng : Engine) (reg : Registry)
    (req : Message) (hub : rlookup req.pageId reg = none)
    (_hnc : req.discr ≠ "create_page") :
    messageSwitch eng reg req
      = (Except.ok (Response.errMsg "Page with requested pageId not found"),
         reg, []) := by
  unfold messageSwitch
  rw [hub]

/-- Witness for C2: the unbound identifier "nope" with a `navigate`
request short-circuits on the seeded registry. -/
theorem missing_page_short_circuit_witness :
    rlookup (Message.navigate "nope" "http://x").pageId (seedRegistry 0) = none
    ∧ (Message.navigate "nope" "http://x").discr ≠ "create_page"
    ∧ messageSwitch engOk (seedRegistry 0) (Message.navigate "nope" "http://x")
      = (Except.ok (Response.errMsg "Page with requested pageId not found"),
         seedRegistry 0, []) :=
  ⟨rfl, by decide,
   missing_page_short_circuit engOk (seedRegistry 0)
     (Message.navigate "nope" "http://x") rfl (by decide)⟩

/-- Claim C4: dispatching `create_page` for an identifier already bound
returns exactly the duplicate-page error payload, performs no engine
call (in particular no `newPage`), and leaves the registry — hence the
first handle — unchanged. -/
theorem create_page_duplicate (eng : Engine) (reg : Registry)
    (pid : String) (h : PageHandle) (hb : rlookup pid reg = some h) :
    messageSwitch eng reg (Message.create_page pid)
      = (Except.ok (Response.errMsg "Page already exists"), reg, []) := by
  simp [messageSwitch, Message.pageId, createPage, hb]

/-- Witness for C4: `create_page` on the already-seeded identifier
"default". -/
theorem create_page_duplicate_witness :
    rlookup "default" (seedRegistry 0) = some 0
    ∧ messageSwitch engOk (seedRegistry 0) (Message.create_page "default")
      = (Except.ok (Response.errMsg "Page already exists"),
         seedRegistry 0, []) :=
  ⟨rfl, create_page_duplicate engOk (seedRegistry 0) "default" 0 rfl⟩

/-- Claim C6 counterexample: a request with the unknown discriminant
"frobnicate" and an unbound `pageId` is answered with the missing-page
payload, not the claimed "No message found" payload. -/
theorem unknown_discr_unbound_cex :
    "frobnicate" ∉ knownDiscriminants
    ∧ messageSwitch engOk (seedRegistry 0)
        (Message.unknown "frobnicate" "nope")
      = (Except.ok (Response.errMsg "Page with requested pageId not found"),
         seedRegistry 0, [])
    ∧ Response.errMsg "Page with requested pageId not found"
      ≠ Response.errMsg "No message found" := by
  refine ⟨by decide, rfl, ?_⟩
  intro h
  injection h with h'
  exact absurd h' (by decide)

/-- Claim C6 as amended: for a request whose discriminant is not one of
the ten known commands *and whose page identifier is bound*, the
dispatcher returns exactly the "No message found" payload (registry
unchanged, no engine call). -/
theorem unknown_discr_bound (eng : Engine) (reg : Registry)
    (d pid : String) (h : PageHandle) (hb : rlookup pid reg = some h)
    (_hd : d ∉ knownDiscriminants) :
    messageSwitch eng reg (Message.unknown d pid)
      = (Except.ok (Response.errMsg "No message found"), reg, []) := by
  simp [messageSwitch, Message.pageId, hb]

/-- Witness for the amended C6: discriminant "frobnicate" with the
bound identifier "default". -/
theorem unknown_discr_bound_witness :
    rlookup "default" (seedRegistry 0) = some 0
    ∧ "frobnicate" ∉ knownDiscriminants
    ∧ messageSwitch engOk (seedRegistry 0)
        (Message.unknown "frobnicate" "default")
      = (Except.ok (Response.errMsg "No message found"), seedRegistry 0, []) :=
  ⟨rfl, by decide,
   unknown_discr_bound engOk (seedRegistry 0) "frobnicate" "default" 0
     rfl (by decide)⟩

/-- Claim C9: registry membership is monotone — every command other
than `create_page` leaves the registry unchanged, and across any
dispatched sequence a bound identifier stays bound to its original
handle. -/
theorem registry_monotone (eng : Engine) (reg : Registry) :
    (∀ req : Message, req.discr ≠ "create_page" →
       (messageSwitch eng reg req).2.1 = reg)
    ∧ (∀ (reqs : List Message) (i : String) (h : PageHandle),
         rlookup i reg = some h →
         rlookup i (runDispatch eng reg reqs) = some h) := by
  constructor
  · intro req _
    exact messageSwitch_registry_eq eng reg req
  · intro reqs i h hb
    rw [runDispatch_registry_eq]
    exact hb

/-- Witness for C9: a `navigate` leaves the seeded registry unchanged,
and "default" stays bound to its handle across a sequence containing a
`create_page` and a `navigate`. -/
theorem registry_monotone_witness :
    (messageSwitch engOk (seedRegistry 0)
        (Message.navigate "default" "http://x")).2.1 = seedRegistry 0
    ∧ rlookup "default"
        (runDispatch engOk (seedRegistry 0)
          [Message.create_page "fresh", Message.navigate "default" "http://x"])
      = some 0 :=
  ⟨(registry_monotone engOk (seedRegistry 0)).1
     (Message.navigate "default" "http://x") (by decide),
   (registry_monotone engOk (seedRegistry 0)).2
     [Message.create_page "fresh", Message.navigate "default" "http://x"]
     "default" 0 rfl⟩

/-- Claim C10: the first frame sent on every new connection is the
status object keyed by the misspelled field name "messge" (the key
"message" is absent, so a client matching on it never sees the
notification), with status "up" when the browser is assigned and
"down" otherwise. -/
theorem connection_status_first (up : Bool) (eng : Engine)
    (reg : Registry) (msgs : List Inbound) :
    (onConnection up eng reg msgs).1.head?
      = some (Sent.statusObj (statusNotification up))
    ∧ rlookup "messge" (statusNotification up) = some "browser_status"
    ∧ rlookup "message" (statusNotification up) = none
    ∧ rlookup "status" (statusNotification true) = some "up"
    ∧ rlookup "status" (statusNotification false) = some "down" := by
  refine ⟨rfl, rfl, ?_, rfl, rfl⟩
  simp [statusNotification, rlookup]

/-- Claim C3 counterexample: on the synthetic tree
`A(children=[B(children=[]), C(children=[D])])` the observe handler's
flattened output is `[A, B, C]`, not the claimed `[A, C]` — node `B`
is included although it has zero children, because its empty
`children` array is truthy in JS. -/
theorem observe_childless_included_cex :
    (observe engSnapA (seedRegistry 0) "default").1
      = Except.ok (Response.snapshotObj [exA, exB, exC])
    ∧ AXNode.children exB = some []
    ∧ List.map AXNode.name [exA, exB, exC] ≠ ["A", "C"] :=
  ⟨rfl, rfl, by decide⟩

/-- Claim C3 as amended: for every snapshot tree returned by the
engine, `observe`'s flattened output consists, in pre-order (parent
before children, left to right), of exactly the nodes whose `children`
field is present — including nodes with an empty child list; nodes
whose `children` field is absent are dropped. -/
theorem observe_flatten_amended (eng : Engine) (reg : Registry)
    (pid : String) (p : PageHandle) (root : AXNode)
    (hb : rlookup pid reg = some p)
    (hs : eng.axSnapshot p = Except.ok (some root)) :
    observe eng reg pid
      = (Except.ok (Response.snapshotObj
           ((preorderAX root).filter hasChildrenField)),
         [EngineCall.axSnapshot p]) := by
  simp [observe, hb, hs]
  exact flatten_eq_filter root

/-- Witness for the amended C3: the engine whose snapshot is the
synthetic tree `A`. -/
theorem observe_flatten_amended_witness :
    rlookup "default" (seedRegistry 0) = some 0
    ∧ engSnapA.axSnapshot 0 = Except.ok (some exA)
    ∧ observe engSnapA (seedRegistry 0) "default"
      = (Except.ok (Response.snapshotObj
           ((preorderAX exA).filter hasChildrenField)),
         [EngineCall.axSnapshot 0]) :=
  ⟨rfl, rfl,
   observe_flatten_amended engSnapA (seedRegistry 0) "default" 0 exA rfl rfl⟩

/-- Claim C5: a frame on which `JSON.parse` throws is answered with
exactly the parse-error payload and the connection stays open — every
later frame is still processed as if the malformed one had not
happened; in particular a following valid request receives its normal
response. -/
theorem parse_error_keeps_connection (eng : Engine) (reg : Registry)
    (s : String) (req : Message) (res : Response) (reg1 : Registry)
    (tr : List EngineCall)
    (hd : messageSwitch eng reg req = (Except.ok res, reg1, tr)) :
    (∀ rest, handleMessages eng reg (Inbound.malformed s :: rest)
        = (Sent.payload (Response.errMsg "Error while parsing JSON")
             :: (handleMessages eng reg rest).1,
           (handleMessages eng reg rest).2))
    ∧ handleMessages eng reg
        [Inbound.malformed s, Inbound.wellFormed req]
      = ([Sent.payload (Response.errMsg "Error while parsing JSON"),
          Sent.payload res], reg1) := by
  constructor
  · intro rest
    simp [handleMessages]
  · simp [handleMessages, hd]

/-- Witness for C5: the malformed text "not json" followed by a valid
`get_html` request on the seeded registry. -/
theorem parse_error_keeps_connection_witness :
    messageSwitch engOk (seedRegistry 0) (Message.get_html "default")
      = (Except.ok (Response.raw "<html></html>"), seedRegistry 0,
         [EngineCall.content 0])
    ∧ handleMessages engOk (seedRegistry 0)
        [Inbound.malformed "not json",
         Inbound.wellFormed (Message.get_html "default")]
      = ([Sent.payload (Response.errMsg "Error while parsing JSON"),
          Sent.payload (Response.raw "<html></html>")], seedRegistry 0) :=
  ⟨rfl,
   (parse_error_keeps_connection engOk (seedRegistry 0) "not json"
      (Message.get_html "default") (Response.raw "<html></html>")
      (seedRegistry 0) [EngineCall.content 0] rfl).2⟩

/-- Claim C7: for a bound page identifier, `move_mouse` with the click
flag `true` performs exactly one engine click at (x, y) and no pointer
move; with the flag omitted or `false` it performs exactly one pointer
move and no click; in each case success yields the implicit ack and an
engine failure yields exactly the "Could not move mouse" payload. -/
theorem move_mouse_spec (eng : Engine) (reg : Registry) (pid : String)
    (x y : Int) (c : Option Bool) (p : PageHandle)
    (hb : rlookup pid reg = some p) :
    (c = some true → eng.mouseClick p x y = Except.ok () →
       messageSwitch eng reg (Message.move_mouse pid x y c)
         = (Except.ok Response.ack, reg, [EngineCall.mouseClick p x y]))
    ∧ (c = some true → eng.mouseClick p x y = Except.error () →
       messageSwitch eng reg (Message.move_mouse pid x y c)
         = (Except.ok (Response.errMsg "Could not move mouse"), reg,
            [EngineCall.mouseClick p x y]))
    ∧ (c ≠ some true → eng.mouseMove p x y = Except.ok () →
       messageSwitch eng reg (Message.move_mouse pid x y c)
         = (Except.ok Response.ack, reg, [EngineCall.mouseMove p x y]))
    ∧ (c ≠ some true → eng.mouseMove p x y = Except.error () →
       messageSwitch eng reg (Message.move_mouse pid x y c)
         = (Except.ok (Response.errMsg "Could not move mouse"), reg,
            [EngineCall.mouseMove p x y])) := by
  have hfs : ∀ o : Option Bool, flagSet o = true ↔ o = some true := by
    intro o
    cases o with
    | none => simp [flagSet]
    | some b => cases b <;> simp [flagSet]
  refine ⟨?_, ?_, ?_, ?_⟩
  · intro hc he
    simp [messageSwitch, Message.pageId, hb, moveMouse, hc, flagSet, he]
  · intro hc he
    simp [messageSwitch, Message.pageId, hb, moveMouse, hc, flagSet, he]
  · intro hc he
    have hf : flagSet c = false := by
      rcases c with _ | b
      · rfl
      · cases b
        · rfl
        · exact absurd rfl hc
    simp [messageSwitch, Message.pageId, hb, moveMouse, hf, he]
  · intro hc he
    have hf : flagSet c = false := by
      rcases c with _ | b
      · rfl
      · cases b
        · rfl
        · exact absurd rfl hc
    simp [messageSwitch, Message.pageId, hb, moveMouse, hf, he]

/-- Witness for C7: a click-flagged `move_mouse` at (3, 4) on the
seeded registry with the all-succeeding engine. -/
theorem move_mouse_spec_witness :
    rlookup "default" (seedRegistry 0) = some 0
    ∧ messageSwitch engOk (seedRegistry 0)
        (Message.move_mouse "default" 3 4 (some true))
      = (Except.ok Response.ack, seedRegistry 0,
         [EngineCall.mouseClick 0 3 4]) :=
  ⟨rfl,
   (move_mouse_spec engOk (seedRegistry 0) "default" 3 4 (some true) 0
      rfl).1 rfl rfl⟩

/-- Claim C8: for a bound page identifier, `get_html` returns the
engine's DOM serialization as a bare string payload (not wrapped in an
object), and it wraps the engine call in no try/catch, so an engine
failure propagates out of the handler (an uncaught rejection) instead
of becoming an error payload. -/
theorem get_html_spec (eng : Engine) (reg : Registry) (pid : String)
    (p : PageHandle) (s : String) (hb : rlookup pid reg = some p) :
    (eng.content p = Except.ok s →
       messageSwitch eng reg (Message.get_html pid)
         = (Except.ok (Response.raw s), reg, [EngineCall.content p]))
    ∧ (eng.content p = Except.error () →
       messageSwitch eng reg (Message.get_html pid)
         = (Except.error (), reg, [EngineCall.content p])) := by
  constructor
  · intro he
    simp [messageSwitch, Message.pageId, hb, getHtml, he]
  · intro he
    simp [messageSwitch, Message.pageId, hb, getHtml, he]

/-- Witness for C8: `get_html` for the seeded page on the
all-succeeding engine yields the bare HTML string. -/
theorem get_html_spec_witness :
    rlookup "default" (seedRegistry 0) = some 0
    ∧ engOk.content 0 = Except.ok "<html></html>"
    ∧ messageSwitch engOk (seedRegistry 0) (Message.get_html "default")
      = (Except.ok (Response.raw "<html></html>"), seedRegistry 0,
         [EngineCall.content 0]) :=
  ⟨rfl, rfl,
   (get_html_spec engOk (seedRegistry 0) "default" 0 "<html></html>"
      rfl).1 rfl⟩
